import Mathlib

/-!
# Verification of the go-shop order lifecycle and role services

Shallow embedding of the order-lifecycle engine (`services/order.go`), the
order HTTP handler's cancel endpoint (`handlers/order.go`), and the role
service (`services/role.go`) of the go-shop backend, together with proofs
of the spec's claims about them.

Modelling conventions:
* The GORM-backed database is a `DBState` record of lists of rows; lookups
  (`First`, `Where ... First`) become `List.find?` with the same predicate.
* Go `float64` monetary values (`Price`, `TotalAmount`, `PriceAtMoment`)
  are modelled as `ℚ`; Go `int` stock/quantity/order-count fields as `ℤ`
  (Go ints are signed and the schema does not restrict them to ℕ).
* A transaction that rolls back on error is modelled by the operation
  returning `Except.error` and the caller keeping the pre-state; `run...`
  wrappers make the resulting state explicit.
* Status strings become the inductive `OrderStatus`, covering the six
  values the source defines.
-/

namespace GoShop

/-- `models.Product` (inventory-relevant fields of `models/product.go`). -/
structure Product where
  id : Nat
  title : String
  price : ℚ
  stock : ℤ
  orderCount : ℤ
  deriving Repr, DecidableEq

/-- `models.OrderStatus` (`models/order.go`): the six status constants. -/
inductive OrderStatus where
  | pending
  | paid
  | confirmed
  | shipped
  | delivered
  | cancelled
  deriving Repr, DecidableEq

/-- `models.OrderItemRequest`: one requested line (product id, quantity). -/
structure OrderItemReq where
  productID : Nat
  quantity : ℤ
  deriving Repr, DecidableEq

/-- `models.OrderItem`: a persisted order line with its frozen price. -/
structure OrderItem where
  orderID : Nat
  productID : Nat
  quantity : ℤ
  priceAtMoment : ℚ
  deriving Repr, DecidableEq

/-- `models.Order`: a persisted order row. -/
structure Order where
  id : Nat
  userID : Nat
  orderNumber : String
  status : OrderStatus
  totalAmount : ℚ
  deriving Repr, DecidableEq

/-- The relational store as seen by the order service: product rows, order
rows, order-item rows, and the next primary key the store will assign to a
created order. -/
structure DBState where
  products : List Product
  orders : List Order
  orderItems : List OrderItem
  nextOrderID : Nat
  deriving Repr, DecidableEq

/-- `tx.First(&product, item.ProductID)`: first product row with the id. -/
def findProduct (ps : List Product) (pid : Nat) : Option Product :=
  ps.find? (fun p => p.id == pid)

/-- `database.DB.First(&order, orderID)` / `Where("id = ?")`: first order
row with the id. -/
def findOrder (os : List Order) (oid : Nat) : Option Order :=
  os.find? (fun o => o.id == oid)

/-- `Where("id = ? AND user_id = ?", orderID, userID).First(&order)`. -/
def findOrderOfUser (os : List Order) (oid uid : Nat) : Option Order :=
  os.find? (fun o => o.id == oid && o.userID == uid)

/-- `database.DB.Save(&order)` after mutating `order.Status`: update the
row with the order's primary key. -/
def setOrderStatus (os : List Order) (oid : Nat) (st : OrderStatus) : List Order :=
  os.map (fun o => if o.id == oid then { o with status := st } else o)

/-- The validation/pricing loop of `OrderService.CreateOrder`
(`services/order.go` lines 36–64): walk the requested lines, failing on a
missing product or insufficient stock, otherwise accumulating the total
amount and the order items with their frozen `PriceAtMoment`. -/
def buildOrderItems (ps : List Product) : List OrderItemReq → Except String (ℚ × List OrderItem)
  | [] => .ok (0, [])
  | item :: rest =>
    match findProduct ps item.productID with
    | none => .error "product not found"
    | some product =>
      if product.stock < item.quantity then
        .error ("insufficient stock for product " ++ product.title)
      else
        match buildOrderItems ps rest with
        | .error e => .error e
        | .ok (t, items) =>
          .ok (product.price * (item.quantity : ℚ) + t,
               { orderID := 0, productID := item.productID, quantity := item.quantity,
                 priceAtMoment := product.price } :: items)

/-- `OrderService.CreateOrder` (`services/order.go` lines 20–122): inside
one transaction, validate and price every line, then persist the order
(status `pending`, order number `ORD-<unix time>-<user id>`) and its line
items. `now` stands for `time.Now().Unix()`. Returns the new store state
and the created order; any error rolls the transaction back. -/
def createOrder (s : DBState) (userID : Nat) (reqs : List OrderItemReq) (now : Nat) :
    Except String (DBState × Order) :=
  match buildOrderItems s.products reqs with
  | .error e => .error e
  | .ok (totalAmount, items) =>
    let order : Order :=
      { id := s.nextOrderID, userID := userID,
        orderNumber := "ORD-" ++ toString now ++ "-" ++ toString userID,
        status := .pending, totalAmount := totalAmount }
    let items := items.map (fun it => { it with orderID := order.id })
    .ok ({ s with orders := s.orders ++ [order],
                  orderItems := s.orderItems ++ items,
                  nextOrderID := s.nextOrderID + 1 }, order)

/-- The store state after `CreateOrder`: the committed state on success,
the unchanged pre-state when the transaction rolled back. -/
def runCreateOrder (s : DBState) (userID : Nat) (reqs : List OrderItemReq) (now : Nat) : DBState :=
  match createOrder s userID reqs now with
  | .ok (s', _) => s'
  | .error _ => s

/-- `Update("stock", gorm.Expr("stock - ?", item.Quantity))` on the rows
with the item's product id (`services/order.go` line 289). -/
def decStock (ps : List Product) (pid : Nat) (q : ℤ) : List Product :=
  ps.map (fun p => if p.id == pid then { p with stock := p.stock - q } else p)

/-- `Update("order_count", gorm.Expr("order_count + 1"))` on the rows with
the item's product id (`services/order.go` line 295). -/
def incOrderCount (ps : List Product) (pid : Nat) : List Product :=
  ps.map (fun p => if p.id == pid then { p with orderCount := p.orderCount + 1 } else p)

/-- The per-item update loop of `OrderService.ConfirmOrder`
(`services/order.go` lines 287–299): for each line item, decrement the
product's stock by the line quantity, then increment its order count by 1. -/
def applyConfirmItems (ps : List Product) : List OrderItem → List Product
  | [] => ps
  | it :: rest => applyConfirmItems (incOrderCount (decStock ps it.productID it.quantity) it.productID) rest

/-- `OrderService.ConfirmOrder` (`services/order.go` lines 262–322): load
the order with its items, require status `paid`, then in one transaction
update stock and order count for every line item and set the status to
`confirmed`. -/
def confirmOrder (s : DBState) (oid : Nat) : Except String DBState :=
  match findOrder s.orders oid with
  | none => .error "order not found"
  | some order =>
    if order.status ≠ .paid then
      .error "order must be paid before confirmation"
    else
      .ok { s with
        products := applyConfirmItems s.products (s.orderItems.filter (fun it => it.orderID == oid)),
        orders := setOrderStatus s.orders oid .confirmed }

/-- The store state after `ConfirmOrder` (pre-state on rollback). -/
def runConfirmOrder (s : DBState) (oid : Nat) : DBState :=
  match confirmOrder s oid with
  | .ok s' => s'
  | .error _ => s

/-- `OrderService.PayOrder` (`services/order.go` lines 424–454): load the
order by id and owning user, require status `pending`, set it to `paid`. -/
def payOrder (s : DBState) (oid uid : Nat) : Except String DBState :=
  match findOrderOfUser s.orders oid uid with
  | none => .error "order not found"
  | some order =>
    if order.status ≠ .pending then
      .error "only pending orders can be paid"
    else
      .ok { s with orders := setOrderStatus s.orders oid .paid }

/-- The store state after `PayOrder` (pre-state on failure). -/
def runPayOrder (s : DBState) (oid uid : Nat) : DBState :=
  match payOrder s oid uid with
  | .ok s' => s'
  | .error _ => s

/-- `OrderService.ShipOrder` (`services/order.go` lines 325–355): require
status `confirmed`, set it to `shipped`. -/
def shipOrder (s : DBState) (oid : Nat) : Except String DBState :=
  match findOrder s.orders oid with
  | none => .error "order not found"
  | some order =>
    if order.status ≠ .confirmed then
      .error "order must be confirmed before shipping"
    else
      .ok { s with orders := setOrderStatus s.orders oid .shipped }

/-- `OrderService.DeliverOrder` (`services/order.go` lines 358–388):
require status `shipped`, set it to `delivered`. -/
def deliverOrder (s : DBState) (oid : Nat) : Except String DBState :=
  match findOrder s.orders oid with
  | none => .error "order not found"
  | some order =>
    if order.status ≠ .shipped then
      .error "order must be shipped before delivery"
    else
      .ok { s with orders := setOrderStatus s.orders oid .delivered }

/-- The store state after `ShipOrder` (pre-state on failure). -/
def runShipOrder (s : DBState) (oid : Nat) : DBState :=
  match shipOrder s oid with
  | .ok s' => s'
  | .error _ => s

/-- The store state after `DeliverOrder` (pre-state on failure). -/
def runDeliverOrder (s : DBState) (oid : Nat) : DBState :=
  match deliverOrder s oid with
  | .ok s' => s'
  | .error _ => s

/-- `OrderService.CancelOrder` (`services/order.go` lines 391–421): load
the order by id alone, reject the two terminal statuses, set it to
`cancelled`. -/
def cancelOrder (s : DBState) (oid : Nat) : Except String DBState :=
  match findOrder s.orders oid with
  | none => .error "order not found"
  | some order =>
    if order.status = .delivered ∨ order.status = .cancelled then
      .error "order cannot be cancelled"
    else
      .ok { s with orders := setOrderStatus s.orders oid .cancelled }

/-- The store state after `CancelOrder` (pre-state on failure). -/
def runCancelOrder (s : DBState) (oid : Nat) : DBState :=
  match cancelOrder s oid with
  | .ok s' => s'
  | .error _ => s

/-- `OrderHandler.CancelOrder` (`handlers/order.go` lines 219–251), mounted
at `POST /orders/:id/cancel` behind `AuthMiddleware` only: it checks that
some authenticated `user_id` is present and then calls
`orderService.CancelOrder(orderID)`; the requester's identity is never
passed on or compared with the order's owner. -/
def handlerCancelOrder (s : DBState) (authenticated : Bool) (requesterID : Nat) (oid : Nat) :
    Except String DBState :=
  if authenticated then
    -- requesterID is dropped, mirroring the handler
    cancelOrder s oid
  else
    .error "User not authenticated"

/-- `models.Role` (`models/role.go`): a named role row. -/
structure Role where
  id : Nat
  name : String
  deriving Repr, DecidableEq

/-- `models.UserRole`: the user-to-role assignment row. -/
structure UserRole where
  userID : Nat
  roleID : Nat
  deriving Repr, DecidableEq

/-- The store as seen by `RoleService`: user ids, role rows, assignments. -/
structure RoleState where
  users : List Nat
  roles : List Role
  userRoles : List UserRole
  deriving Repr, DecidableEq

/-- `models.ROLE_SUPER_ADMIN`. -/
def ROLE_SUPER_ADMIN : String := "super_admin"

/-- `models.ROLE_USER`. -/
def ROLE_USER : String := "user"

/-- `RoleService.GetUserRole` (`services/role.go`): first assignment row of
the user, defaulting to `user` when none exists; the role name comes from
the preloaded `Role` relation (GORM leaves it zero-valued, name `""`, when
the referenced role row is gone). -/
def getUserRole (rs : RoleState) (uid : Nat) : String :=
  match rs.userRoles.find? (fun ur => ur.userID == uid) with
  | none => ROLE_USER
  | some ur =>
    match rs.roles.find? (fun r => r.id == ur.roleID) with
    | none => ""
    | some r => r.name

/-- `RoleService.AssignRole` (`services/role.go`): require the actor's
resolved role to be super-admin, look up the role by name and the target
user by id, then inside one transaction delete every existing assignment
of the target and insert the new one. -/
def assignRole (rs : RoleState) (userID : Nat) (roleName : String) (assignedBy : Nat) :
    Except String RoleState :=
  if getUserRole rs assignedBy ≠ ROLE_SUPER_ADMIN then
    .error "only super admin can assign roles"
  else
    match rs.roles.find? (fun r => r.name == roleName) with
    | none => .error "role not found"
    | some role =>
      if userID ∉ rs.users then
        .error "user not found"
      else
        .ok { rs with userRoles :=
          rs.userRoles.filter (fun ur => !(ur.userID == userID)) ++ [{ userID := userID, roleID := role.id }] }

/-- `RoleService.RemoveRole` (`services/role.go`): require the actor to be
super-admin, reject self-removal, require the target user and an existing
assignment, then delete the target's assignment rows. -/
def removeRole (rs : RoleState) (userID : Nat) (removedBy : Nat) : Except String RoleState :=
  if getUserRole rs removedBy ≠ ROLE_SUPER_ADMIN then
    .error "only super admin can remove roles"
  else if userID == removedBy then
    .error "cannot remove your own role"
  else if userID ∉ rs.users then
    .error "user not found"
  else
    match rs.userRoles.find? (fun ur => ur.userID == userID) with
    | none => .error "user has no role to remove"
    | some _ =>
      .ok { rs with userRoles := rs.userRoles.filter (fun ur => !(ur.userID == userID)) }

/-- The role store after `RemoveRole` (pre-state on failure). -/
def runRemoveRole (rs : RoleState) (userID : Nat) (removedBy : Nat) : RoleState :=
  match removeRole rs userID removedBy with
  | .ok rs' => rs'
  | .error _ => rs

/-- Whether an `Except` result is an error. -/
def isErr {ε α : Type} : Except ε α → Bool
  | .error _ => true
  | .ok _ => false

/-! ## Derived quantities used to state the claims -/

/-- The current catalog price of a product id (0 if absent; only used
under hypotheses that make the product present). -/
def priceOf (ps : List Product) (pid : Nat) : ℚ :=
  ((findProduct ps pid).map Product.price).getD 0

/-- The order item `CreateOrder` builds for one requested line. -/
def mkItem (ps : List Product) (oid : Nat) (r : OrderItemReq) : OrderItem :=
  { orderID := oid, productID := r.productID, quantity := r.quantity,
    priceAtMoment := priceOf ps r.productID }

/-- The sum of `price × quantity` over the requested lines. -/
def totalOf (ps : List Product) (reqs : List OrderItemReq) : ℚ :=
  (reqs.map (fun r => priceOf ps r.productID * (r.quantity : ℚ))).sum

/-- Total quantity a list of order items requests of one product. -/
def qtyOf (items : List OrderItem) (pid : Nat) : ℤ :=
  ((items.filter (fun it => it.productID == pid)).map OrderItem.quantity).sum

/-- Number of lines of a list of order items that reference one product. -/
def cntOf (items : List OrderItem) (pid : Nat) : ℤ :=
  ((items.filter (fun it => it.productID == pid)).length : ℤ)

/-- A requested line whose product exists with stock covering it. -/
def LineOK (ps : List Product) (r : OrderItemReq) : Prop :=
  ∃ p, findProduct ps r.productID = some p ∧ r.quantity ≤ p.stock

/-- The store state after the handler's cancel endpoint. -/
def runHandlerCancelOrder (s : DBState) (authenticated : Bool) (requesterID oid : Nat) : DBState :=
  match handlerCancelOrder s authenticated requesterID oid with
  | .ok s' => s'
  | .error _ => s

/-! ## Concrete instances (the spec's worked examples) -/

/-- Product A of the spec's example: price 10.00, stock 5. -/
def prodA : Product := { id := 1, title := "A", price := 10, stock := 5, orderCount := 0 }

/-- Product B of the spec's example: price 5.00, stock 1. -/
def prodB : Product := { id := 2, title := "B", price := 5, stock := 1, orderCount := 0 }

/-- A fresh store holding products A and B and no orders. -/
def s0 : DBState := { products := [prodA, prodB], orders := [], orderItems := [], nextOrderID := 1 }

/-- The example request: qty 2 of product A, qty 1 of product B. -/
def reqAB : List OrderItemReq := [{ productID := 1, quantity := 2 }, { productID := 2, quantity := 1 }]

/-- A request under-stocked on product B (stock 1 < qty 5). -/
def reqUnder : List OrderItemReq := [{ productID := 2, quantity := 5 }]

/-- A request referencing a product id that does not exist. -/
def reqMissing : List OrderItemReq := [{ productID := 9, quantity := 1 }]

/-- The pending example order as persisted. -/
def oPend : Order :=
  { id := 1, userID := 7, orderNumber := "ORD-100-7", status := .pending, totalAmount := 25 }

/-- The paid example order as persisted. -/
def oPaid : Order :=
  { id := 1, userID := 7, orderNumber := "ORD-100-7", status := .paid, totalAmount := 25 }

/-- The cancelled example order as persisted. -/
def oCancelled : Order :=
  { id := 1, userID := 7, orderNumber := "ORD-100-7", status := .cancelled, totalAmount := 25 }

/-- The persisted line item for product A (qty 2, frozen price 10). -/
def itA : OrderItem := { orderID := 1, productID := 1, quantity := 2, priceAtMoment := 10 }

/-- The persisted line item for product B (qty 1, frozen price 5). -/
def itB : OrderItem := { orderID := 1, productID := 2, quantity := 1, priceAtMoment := 5 }

/-- The store after user 7 creates the example order (at unix time 100). -/
def sPend : DBState :=
  { products := [prodA, prodB], orders := [oPend], orderItems := [itA, itB], nextOrderID := 2 }

/-- The store after user 7 pays that order. -/
def sPaid : DBState :=
  { products := [prodA, prodB], orders := [oPaid], orderItems := [itA, itB], nextOrderID := 2 }

/-- The store after the pending example order is cancelled. -/
def sCancelled : DBState :=
  { products := [prodA, prodB], orders := [oCancelled], orderItems := [itA, itB], nextOrderID := 2 }

/-- Product C: stock 5, used for the duplicate-line oversell trace. -/
def prodC : Product := { id := 1, title := "C", price := 10, stock := 5, orderCount := 0 }

/-- A fresh store holding only product C. -/
def sC : DBState := { products := [prodC], orders := [], orderItems := [], nextOrderID := 1 }

/-- Two lines for product C, each within stock (3 ≤ 5) but summing to 6. -/
def reqCC : List OrderItemReq := [{ productID := 1, quantity := 3 }, { productID := 1, quantity := 3 }]

/-- The store after creating, paying and confirming the duplicate-line
order on product C (each lifecycle call succeeding). -/
def sOversold : DBState :=
  runConfirmOrder (runPayOrder (runCreateOrder sC 7 reqCC 100) 1 7) 1

/-- A role store: users 7 and 42 exist, the three roles exist, nobody has
an explicit assignment (so both resolve to the default `user`). -/
def rs42 : RoleState :=
  { users := [7, 42],
    roles := [{ id := 1, name := "super_admin" }, { id := 2, name := "seller" }, { id := 3, name := "user" }],
    userRoles := [] }

/-- A role store: users 1, 2, 3; user 1 is assigned `super_admin`. -/
def rsBase : RoleState :=
  { users := [1, 2, 3],
    roles := [{ id := 1, name := "super_admin" }, { id := 2, name := "seller" }, { id := 3, name := "user" }],
    userRoles := [{ userID := 1, roleID := 1 }] }

/-- The role store after the super-admin assigns `seller` to user 2. -/
def rsAfter : RoleState :=
  { users := [1, 2, 3],
    roles := [{ id := 1, name := "super_admin" }, { id := 2, name := "seller" }, { id := 3, name := "user" }],
    userRoles := [{ userID := 1, roleID := 1 }, { userID := 2, roleID := 2 }] }

/-! ## Lemmas about the pricing/validation loop -/

theorem qtyOf_nil (pid : Nat) : qtyOf [] pid = 0 := rfl

theorem cntOf_nil (pid : Nat) : cntOf [] pid = 0 := rfl

theorem qtyOf_cons (it : OrderItem) (items : List OrderItem) (pid : Nat) :
    qtyOf (it :: items) pid =
      (if it.productID = pid then it.quantity else 0) + qtyOf items pid := by
  simp only [qtyOf, List.filter_cons]
  by_cases h : it.productID = pid <;> simp [h]

theorem cntOf_cons (it : OrderItem) (items : List OrderItem) (pid : Nat) :
    cntOf (it :: items) pid =
      (if it.productID = pid then 1 else 0) + cntOf items pid := by
  simp only [cntOf, List.filter_cons]
  by_cases h : it.productID = pid <;> simp [h] <;> omega

/-- When every requested line is covered by stock, the validation loop
succeeds, pricing every line at the product's current price. -/
theorem buildOrderItems_ok (ps : List Product) (reqs : List OrderItemReq)
    (h : ∀ r ∈ reqs, LineOK ps r) :
    buildOrderItems ps reqs = .ok (totalOf ps reqs, reqs.map (mkItem ps 0)) := by
  induction reqs with
  | nil => simp [buildOrderItems, totalOf]
  | cons r rest ih =>
    obtain ⟨p, hp, hle⟩ := h r (List.mem_cons_self r rest)
    have hrest : ∀ x ∈ rest, LineOK ps x := fun x hx => h x (List.mem_cons_of_mem r hx)
    simp only [buildOrderItems, hp, not_lt.mpr hle, if_neg (not_lt.mpr hle), ih hrest]
    simp [totalOf, mkItem, priceOf, hp]

/-- If every referenced product exists but some line is under-stocked, the
validation loop fails naming an under-stocked product. -/
theorem buildOrderItems_understocked (ps : List Product) (reqs : List OrderItemReq)
    (hex : ∀ r ∈ reqs, (findProduct ps r.productID).isSome)
    (hund : ∃ r ∈ reqs, ∃ p, findProduct ps r.productID = some p ∧ p.stock < r.quantity) :
    ∃ r ∈ reqs, ∃ p, findProduct ps r.productID = some p ∧ p.stock < r.quantity ∧
      buildOrderItems ps reqs = .error ("insufficient stock for product " ++ p.title) := by
  induction reqs with
  | nil => simp at hund
  | cons r rest ih =>
    obtain ⟨p, hp⟩ := Option.isSome_iff_exists.mp (hex r (List.mem_cons_self r rest))
    by_cases hlt : p.stock < r.quantity
    · exact ⟨r, List.mem_cons_self r rest, p, hp, hlt, by simp [buildOrderItems, hp, hlt]⟩
    · have hund' : ∃ x ∈ rest, ∃ q, findProduct ps x.productID = some q ∧ q.stock < x.quantity := by
        obtain ⟨x, hx, q, hq, hqlt⟩ := hund
        rcases List.mem_cons.mp hx with hhead | htail
        · subst hhead
          rw [hp] at hq
          injection hq with hq'
          subst hq'
          exact absurd hqlt hlt
        · exact ⟨x, htail, q, hq, hqlt⟩
      obtain ⟨x, hx, q, hq, hqlt, herr⟩ :=
        ih (fun y hy => hex y (List.mem_cons_of_mem r hy)) hund'
      exact ⟨x, List.mem_cons_of_mem r hx, q, hq, hqlt, by
        simp [buildOrderItems, hp, not_lt.mp hlt, herr]⟩

/-- If some line references a missing product while every line whose
product exists is covered by stock, the loop fails with "product not
found". -/
theorem buildOrderItems_missing (ps : List Product) (reqs : List OrderItemReq)
    (hmiss : ∃ r ∈ reqs, findProduct ps r.productID = none)
    (hstock : ∀ r ∈ reqs, ∀ p, findProduct ps r.productID = some p → r.quantity ≤ p.stock) :
    buildOrderItems ps reqs = .error "product not found" := by
  induction reqs with
  | nil => simp at hmiss
  | cons r rest ih =>
    cases hp : findProduct ps r.productID with
    | none => simp [buildOrderItems, hp]
    | some p =>
      have hle := hstock r (List.mem_cons_self r rest) p hp
      have hmiss' : ∃ x ∈ rest, findProduct ps x.productID = none := by
        obtain ⟨x, hx, hxn⟩ := hmiss
        rcases List.mem_cons.mp hx with hhead | htail
        · subst hhead; simp [hp] at hxn
        · exact ⟨x, htail, hxn⟩
      have := ih hmiss' (fun y hy => hstock y (List.mem_cons_of_mem r hy))
      simp [buildOrderItems, hp, not_lt.mpr hle, this]

/-- The order row `CreateOrder` persists for a fully covered request. -/
def newOrder (s : DBState) (userID : Nat) (reqs : List OrderItemReq) (now : Nat) : Order :=
  { id := s.nextOrderID, userID := userID,
    orderNumber := "ORD-" ++ toString now ++ "-" ++ toString userID,
    status := .pending, totalAmount := totalOf s.products reqs }

/-- `CreateOrder` on a fully covered request: commits the order (status
`pending`, total `Σ price × qty`) and its frozen line items. -/
theorem createOrder_ok (s : DBState) (userID now : Nat) (reqs : List OrderItemReq)
    (h : ∀ r ∈ reqs, LineOK s.products r) :
    createOrder s userID reqs now =
      .ok ({ s with orders := s.orders ++ [newOrder s userID reqs now],
                    orderItems := s.orderItems ++ reqs.map (mkItem s.products s.nextOrderID),
                    nextOrderID := s.nextOrderID + 1 },
           newOrder s userID reqs now) := by
  simp only [createOrder, buildOrderItems_ok s.products reqs h, List.map_map]
  rfl

/-- A generic helper: mapping a pointwise-identity function is identity. -/
theorem map_eq_self_of_eq {α : Type} (l : List α) (f : α → α) (h : ∀ x ∈ l, f x = x) :
    l.map f = l := by
  induction l with
  | nil => rfl
  | cons a t ih =>
    simp [h a (List.mem_cons_self a t), ih (fun x hx => h x (List.mem_cons_of_mem a hx))]

/-- One iteration of the confirm loop as a single map over the products. -/
theorem incOrderCount_decStock (ps : List Product) (pid : Nat) (q : ℤ) :
    incOrderCount (decStock ps pid q) pid =
      ps.map (fun p => if p.id = pid then
        { p with stock := p.stock - q, orderCount := p.orderCount + 1 } else p) := by
  simp only [decStock, incOrderCount, List.map_map]
  congr 1
  funext p
  by_cases h : p.id = pid <;> simp [Function.comp, h]

/-- The whole confirm loop: each product loses the summed quantity of the
lines that reference it and gains one order count per such line. -/
theorem applyConfirmItems_eq (items : List OrderItem) (ps : List Product) :
    applyConfirmItems ps items =
      ps.map (fun p => { p with stock := p.stock - qtyOf items p.id,
                                orderCount := p.orderCount + cntOf items p.id }) := by
  induction items generalizing ps with
  | nil =>
    show ps = _
    rw [map_eq_self_of_eq]
    intro p _
    simp [qtyOf_nil, cntOf_nil]
  | cons it rest ih =>
    show applyConfirmItems (incOrderCount (decStock ps it.productID it.quantity) it.productID) rest = _
    rw [ih, incOrderCount_decStock, List.map_map]
    congr 1
    funext p
    by_cases h : p.id = it.productID
    · simp [Function.comp, h, qtyOf_cons, cntOf_cons, Product.mk.injEq]
      omega
    · simp [Function.comp, h, qtyOf_cons, cntOf_cons, Ne.symm h]

/-- `find?` on a cons whose head satisfies the predicate. -/
theorem find?_cons_pos {α : Type} (p : α → Bool) (a : α) (l : List α) (h : p a = true) :
    List.find? p (a :: l) = some a :=
  List.find?_cons_of_pos l h

/-- `find?` on a cons whose head fails the predicate. -/
theorem find?_cons_neg {α : Type} (p : α → Bool) (a : α) (l : List α) (h : p a = false) :
    List.find? p (a :: l) = List.find? p l :=
  List.find?_cons_of_neg l (by simp [h])

/-- Updating the status of the found order is visible through `findOrder`. -/
theorem findOrder_setOrderStatus {os : List Order} {oid : Nat} {o : Order} (st : OrderStatus)
    (h : findOrder os oid = some o) :
    findOrder (setOrderStatus os oid st) oid = some { o with status := st } := by
  induction os with
  | nil => simp [findOrder] at h
  | cons x rest ih =>
    by_cases hx : x.id = oid
    · have hb : (x.id == oid) = true := beq_iff_eq.mpr hx
      rw [findOrder, find?_cons_pos (fun y => y.id == oid) x rest hb] at h
      injection h with h'
      subst h'
      show findOrder ((if x.id == oid then { x with status := st } else x) ::
        setOrderStatus rest oid st) oid = _
      rw [if_pos hb, findOrder,
        find?_cons_pos (fun y => y.id == oid) { x with status := st } (setOrderStatus rest oid st) hb]
    · have hb : (x.id == oid) = false := beq_eq_false_iff_ne.mpr hx
      rw [findOrder, find?_cons_neg (fun y => y.id == oid) x rest hb] at h
      show findOrder ((if x.id == oid then { x with status := st } else x) ::
        setOrderStatus rest oid st) oid = _
      rw [if_neg (by simp [hb]), findOrder,
        find?_cons_neg (fun y => y.id == oid) x (setOrderStatus rest oid st) hb]
      exact ih h

/-- Appending a row with a fresh id makes it the one `findOrder` finds. -/
theorem findOrder_append_fresh (os : List Order) (o : Order)
    (h : ∀ x ∈ os, x.id ≠ o.id) :
    findOrder (os ++ [o]) o.id = some o := by
  induction os with
  | nil => simp [findOrder]
  | cons x rest ih =>
    simp only [List.cons_append, findOrder, List.find?_cons] at ih ⊢
    simp [beq_eq_false_iff_ne.mpr (h x (List.mem_cons_self x rest)),
          ih (fun y hy => h y (List.mem_cons_of_mem x hy))]

/-- The owner-scoped lookup agrees with the id lookup for the owner. -/
theorem findOrderOfUser_of_findOrder {os : List Order} {oid : Nat} {o : Order}
    (h : findOrder os oid = some o) :
    findOrderOfUser os oid o.userID = some o := by
  induction os with
  | nil => simp [findOrder] at h
  | cons x rest ih =>
    by_cases hx : x.id = oid
    · simp only [findOrder, List.find?_cons, beq_self_eq_true, hx, cond_true] at h
      cases h
      simp [findOrderOfUser, List.find?_cons, hx]
    · simp only [findOrder, List.find?_cons, beq_eq_false_iff_ne.mpr hx, cond_false] at h
      simp only [findOrderOfUser, List.find?_cons] at ih ⊢
      simp [beq_eq_false_iff_ne.mpr hx, ih h]

/-- The owner-scoped lookup fails when no row with the id has the user. -/
theorem findOrderOfUser_none (os : List Order) (oid uid : Nat)
    (h : ∀ x ∈ os, x.id = oid → x.userID ≠ uid) :
    findOrderOfUser os oid uid = none := by
  induction os with
  | nil => rfl
  | cons x rest ih =>
    simp only [findOrderOfUser, List.find?_cons] at ih ⊢
    have hx : (x.id == oid && x.userID == uid) = false := by
      by_cases h1 : x.id = oid
      · simp [beq_eq_false_iff_ne.mpr (h x (List.mem_cons_self x rest) h1)]
      · simp [beq_eq_false_iff_ne.mpr h1]
    simp [hx, ih (fun y hy => h y (List.mem_cons_of_mem x hy))]

/-- Saving a status change of a fresh-id row only rewrites that row. -/
theorem setOrderStatus_append_fresh (os : List Order) (o : Order) (st : OrderStatus)
    (h : ∀ x ∈ os, x.id ≠ o.id) :
    setOrderStatus (os ++ [o]) o.id st = os ++ [{ o with status := st }] := by
  unfold setOrderStatus
  rw [List.map_append,
      map_eq_self_of_eq os _ (fun x hx => by simp [beq_eq_false_iff_ne.mpr (h x hx)])]
  simp

/-- Filtering appended line items by a fresh order id keeps exactly the
appended ones. -/
theorem filter_append_fresh (its new : List OrderItem) (oid : Nat)
    (h1 : ∀ it ∈ its, it.orderID ≠ oid) (h2 : ∀ it ∈ new, it.orderID = oid) :
    (its ++ new).filter (fun it => it.orderID == oid) = new := by
  rw [List.filter_append,
      List.filter_eq_nil_iff.mpr (fun it hit => by simp [h1 it hit]),
      List.filter_eq_self.mpr (fun it hit => by simp [h2 it hit])]
  rfl

/-- The per-product quantity of the freshly built items, at request level. -/
theorem qtyOf_map_mkItem (ps : List Product) (oid : Nat) (reqs : List OrderItemReq) (pid : Nat) :
    qtyOf (reqs.map (mkItem ps oid)) pid =
      ((reqs.filter (fun r => r.productID == pid)).map OrderItemReq.quantity).sum := by
  induction reqs with
  | nil => rfl
  | cons r rest ih =>
    rw [List.map_cons, qtyOf_cons, ih, List.filter_cons]
    by_cases h : r.productID = pid <;> simp [mkItem, h]

/-- The per-product line count of the freshly built items, at request level. -/
theorem cntOf_map_mkItem (ps : List Product) (oid : Nat) (reqs : List OrderItemReq) (pid : Nat) :
    cntOf (reqs.map (mkItem ps oid)) pid =
      ((reqs.filter (fun r => r.productID == pid)).length : ℤ) := by
  induction reqs with
  | nil => rfl
  | cons r rest ih =>
    rw [List.map_cons, cntOf_cons, ih, List.filter_cons]
    by_cases h : r.productID = pid <;> simp [mkItem, h] <;> omega

/-- If the validation loop succeeds, every line was covered by stock. -/
theorem buildOrderItems_ok_sound (ps : List Product) (reqs : List OrderItemReq)
    (x : ℚ × List OrderItem) (h : buildOrderItems ps reqs = .ok x) :
    ∀ r ∈ reqs, LineOK ps r := by
  induction reqs generalizing x with
  | nil => simp
  | cons r rest ih =>
    intro y hy
    unfold buildOrderItems at h
    cases hp : findProduct ps r.productID with
    | none => simp only [hp] at h; cases h
    | some p =>
      simp only [hp] at h
      by_cases hlt : p.stock < r.quantity
      · rw [if_pos hlt] at h; cases h
      · rw [if_neg hlt] at h
        cases hrest : buildOrderItems ps rest with
        | error e => rw [hrest] at h; cases h
        | ok y' =>
          rcases List.mem_cons.mp hy with hhead | htail
          · exact hhead ▸ ⟨p, hp, not_lt.mp hlt⟩
          · exact ih y' hrest y htail

/-- `find?` skips a prefix with no match. -/
theorem find?_append_none {α : Type} (p : α → Bool) (l1 l2 : List α)
    (h : l1.find? p = none) : (l1 ++ l2).find? p = l2.find? p := by
  rw [List.find?_append, h, Option.none_or]

/-! ## Claims -/

/-- C1: for every non-empty list of line-item requests (positive
quantities) in which every referenced product exists with stock at least
the requested quantity, `CreateOrder` succeeds and returns an order in
status `pending`, owned by the requesting user, whose total amount is the
sum over the lines of the product's current price times the quantity, and
persists line items carrying that frozen price-at-moment and quantity. -/
theorem c1_createOrder_success (s : DBState) (userID now : Nat) (reqs : List OrderItemReq)
    (hne : reqs ≠ [])
    (hpos : ∀ r ∈ reqs, 0 < r.quantity)
    (hok : ∀ r ∈ reqs, LineOK s.products r) :
    ∃ s' o, createOrder s userID reqs now = .ok (s', o) ∧
      o.status = .pending ∧
      o.userID = userID ∧
      o.totalAmount = (reqs.map (fun r => priceOf s.products r.productID * (r.quantity : ℚ))).sum ∧
      s'.orders = s.orders ++ [o] ∧
      s'.orderItems = s.orderItems ++ reqs.map (fun r =>
        { orderID := s.nextOrderID, productID := r.productID, quantity := r.quantity,
          priceAtMoment := priceOf s.products r.productID }) :=
  ⟨_, _, createOrder_ok s userID now reqs hok, rfl, rfl, rfl, rfl, rfl⟩

/-- C1 witness: the spec's worked example (A: price 10 stock 5 qty 2,
B: price 5 stock 1 qty 1 → pending order of total 25). -/
theorem c1_witness :
    (∃ s' o, createOrder s0 7 reqAB 100 = .ok (s', o) ∧
      o.status = .pending ∧
      o.userID = 7 ∧
      o.totalAmount = (reqAB.map (fun r => priceOf s0.products r.productID * (r.quantity : ℚ))).sum ∧
      s'.orders = s0.orders ++ [o] ∧
      s'.orderItems = s0.orderItems ++ reqAB.map (fun r =>
        { orderID := s0.nextOrderID, productID := r.productID, quantity := r.quantity,
          priceAtMoment := priceOf s0.products r.productID })) ∧
    (reqAB.map (fun r => priceOf s0.products r.productID * (r.quantity : ℚ))).sum = 25 := by
  have hpA : priceOf s0.products 1 = 10 := rfl
  have hpB : priceOf s0.products 2 = 5 := rfl
  refine ⟨c1_createOrder_success s0 7 100 reqAB (by decide) (by decide) ?_,
          by norm_num [reqAB, hpA, hpB]⟩
  intro r hr
  fin_cases hr
  · exact ⟨prodA, rfl, by decide⟩
  · exact ⟨prodB, rfl, by decide⟩

/-- C2: a request with an under-stocked line fails naming the offending
product; a request referencing a missing product (its earlier lines all
valid) fails with "product not found"; every failing `CreateOrder` leaves
the store unchanged (no order row, no line-item row). -/
theorem c2_createOrder_failure (s : DBState) (userID now : Nat) (reqs : List OrderItemReq) :
    ((∀ r ∈ reqs, (findProduct s.products r.productID).isSome) →
      (∃ r ∈ reqs, ∃ p, findProduct s.products r.productID = some p ∧ p.stock < r.quantity) →
      ∃ r ∈ reqs, ∃ p, findProduct s.products r.productID = some p ∧ p.stock < r.quantity ∧
        createOrder s userID reqs now = .error ("insufficient stock for product " ++ p.title)) ∧
    ((∃ r ∈ reqs, findProduct s.products r.productID = none) →
      (∀ r ∈ reqs, ∀ p, findProduct s.products r.productID = some p → r.quantity ≤ p.stock) →
      createOrder s userID reqs now = .error "product not found") ∧
    (∀ e, createOrder s userID reqs now = .error e → runCreateOrder s userID reqs now = s) := by
  refine ⟨?_, ?_, ?_⟩
  · intro hex hund
    obtain ⟨r, hr, p, hp, hlt, herr⟩ := buildOrderItems_understocked s.products reqs hex hund
    exact ⟨r, hr, p, hp, hlt, by simp [createOrder, herr]⟩
  · intro hmiss hstock
    simp [createOrder, buildOrderItems_missing s.products reqs hmiss hstock]
  · intro e he
    unfold runCreateOrder
    rw [he]

/-- C2 witness: under-stock on product B (stock 1 < qty 5) fails naming B;
a request for missing product id 9 fails with "product not found"; the
failing store is unchanged. -/
theorem c2_witness :
    (∃ r ∈ reqUnder, ∃ p, findProduct s0.products r.productID = some p ∧ p.stock < r.quantity ∧
      createOrder s0 7 reqUnder 100 = .error ("insufficient stock for product " ++ p.title)) ∧
    createOrder s0 7 reqMissing 100 = .error "product not found" ∧
    runCreateOrder s0 7 reqUnder 100 = s0 := by
  refine ⟨(c2_createOrder_failure s0 7 100 reqUnder).1 (by decide)
            ⟨{ productID := 2, quantity := 5 }, by decide, prodB, rfl, by decide⟩,
          (c2_createOrder_failure s0 7 100 reqMissing).2.1
            ⟨{ productID := 9, quantity := 1 }, by decide, rfl⟩ ?_,
          (c2_createOrder_failure s0 7 100 reqUnder).2.2
            ("insufficient stock for product " ++ prodB.title) rfl⟩
  intro r hr p hp
  fin_cases hr
  exact Option.noConfusion hp

/-- C7: `CreateOrder` and `CancelOrder` never touch any product row: no
stock or order-count change at creation or cancellation time. -/
theorem c7_products_frame (s : DBState) (userID now oid : Nat) (reqs : List OrderItemReq) :
    (runCreateOrder s userID reqs now).products = s.products ∧
    (runCancelOrder s oid).products = s.products := by
  constructor
  · unfold runCreateOrder createOrder
    cases hb : buildOrderItems s.products reqs with
    | error e => simp
    | ok x => obtain ⟨t, its⟩ := x; simp
  · unfold runCancelOrder cancelOrder
    cases hf : findOrder s.orders oid with
    | none => simp
    | some o =>
      by_cases hc : o.status = .delivered ∨ o.status = .cancelled
      · simp [hc]
      · simp [hc]

/-- C9: `RemoveRole` invoked with the target equal to the acting user
always fails, whatever the actor's role, and removes nothing. -/
theorem c9_removeRole_self_fails (rs : RoleState) (u : Nat) :
    isErr (removeRole rs u u) = true ∧ runRemoveRole rs u u = rs := by
  by_cases hc : getUserRole rs u ≠ ROLE_SUPER_ADMIN
  · have h : removeRole rs u u = .error "only super admin can remove roles" := by
      unfold removeRole
      rw [if_pos hc]
    exact ⟨by rw [h]; rfl, by unfold runRemoveRole; rw [h]⟩
  · have h : removeRole rs u u = .error "cannot remove your own role" := by
      unfold removeRole
      rw [if_neg hc, if_pos (beq_self_eq_true u)]
    exact ⟨by rw [h]; rfl, by unfold runRemoveRole; rw [h]⟩

/-- C6 (violated by the code): the cancel endpoint cancels a stranger's
order. Order 1 belongs to user 7; the authenticated requester 42 is not
the owner and resolves to the default role `user` (no admin role), yet
`OrderHandler.CancelOrder` succeeds and sets the order to `cancelled`,
because the handler never passes the requester id to the service. -/
theorem c6_stranger_cancel_succeeds :
    (findOrder sPend.orders 1).map Order.userID = some 7 ∧
    getUserRole rs42 42 = ROLE_USER ∧
    handlerCancelOrder sPend true 42 1 = .ok sCancelled ∧
    (findOrder sCancelled.orders 1).map Order.status = some OrderStatus.cancelled := by
  refine ⟨rfl, rfl, ?_, rfl⟩
  show Except.ok _ = _
  rfl

/-- C4 counterexample: a reachable negative stock. Product C starts with
stock 5; user 7 creates an order with two lines of qty 3 each (both pass
the per-line check), pays it, and an admin confirms it; every call
succeeds and product C ends with stock −1. -/
theorem c4_counterexample :
    isErr (createOrder sC 7 reqCC 100) = false ∧
    isErr (payOrder (runCreateOrder sC 7 reqCC 100) 1 7) = false ∧
    isErr (confirmOrder (runPayOrder (runCreateOrder sC 7 reqCC 100) 1 7) 1) = false ∧
    (findProduct sOversold.products 1).map Product.stock = some (-1) := by
  decide

/-- C4 as amended: the only guard against a negative-driving decrement is
the per-line stock check at creation time (`CreateOrder` fails whenever
some line exceeds its product's stored stock); `ConfirmOrder` decrements
unconditionally, so states with negative stock are reachable. -/
theorem c4_creation_guard_only (s : DBState) (userID now : Nat) (reqs : List OrderItemReq) :
    ((∃ r ∈ reqs, ∃ p, findProduct s.products r.productID = some p ∧ p.stock < r.quantity) →
      isErr (createOrder s userID reqs now) = true) ∧
    (∃ p ∈ sOversold.products, p.stock < 0) := by
  constructor
  · intro hund
    cases hb : buildOrderItems s.products reqs with
    | error e => simp [createOrder, hb, isErr]
    | ok x =>
      obtain ⟨r, hr, p, hp, hlt⟩ := hund
      obtain ⟨p', hp', hle⟩ := buildOrderItems_ok_sound s.products reqs x hb r hr
      rw [hp] at hp'
      injection hp' with hp''
      subst hp''
      exact absurd hle (not_le.mpr hlt)
  · exact ⟨{ id := 1, title := "C", price := 10, stock := -1, orderCount := 2 },
           by decide, by decide⟩

/-- C4 amended witness: the creation-time guard fires on the under-stocked
request for product B, and the oversold trace exhibits negative stock. -/
theorem c4_witness :
    isErr (createOrder s0 7 reqUnder 100) = true ∧
    (∃ p ∈ sOversold.products, p.stock < 0) := by
  refine ⟨(c4_creation_guard_only s0 7 100 reqUnder).1
            ⟨{ productID := 2, quantity := 5 }, by decide, prodB, rfl, by decide⟩,
          (c4_creation_guard_only s0 7 100 reqUnder).2⟩

/-- C3: `ConfirmOrder` on a found order: when the order is `paid` it
succeeds, each product's stock drops by exactly the summed quantities of
the order's lines referencing it, each product's order count rises by
exactly the number of such lines (one per line, not per unit), and the
order's status becomes `confirmed`, all in one committed state; when the
order is not `paid` it fails and the store is unchanged. -/
theorem c3_confirmOrder_spec (s : DBState) (oid : Nat) (o : Order)
    (h : findOrder s.orders oid = some o) :
    (o.status = .paid →
      confirmOrder s oid = .ok { s with
        products := s.products.map (fun p =>
          { p with
            stock := p.stock - qtyOf (s.orderItems.filter (fun it => it.orderID == oid)) p.id,
            orderCount := p.orderCount +
              cntOf (s.orderItems.filter (fun it => it.orderID == oid)) p.id }),
        orders := setOrderStatus s.orders oid .confirmed } ∧
      findOrder (runConfirmOrder s oid).orders oid = some { o with status := .confirmed }) ∧
    (o.status ≠ .paid →
      confirmOrder s oid = .error "order must be paid before confirmation" ∧
      runConfirmOrder s oid = s) := by
  constructor
  · intro hst
    have hc : confirmOrder s oid = .ok { s with
        products := applyConfirmItems s.products (s.orderItems.filter (fun it => it.orderID == oid)),
        orders := setOrderStatus s.orders oid .confirmed } := by
      unfold confirmOrder
      simp only [h]
      rw [if_neg (by simp [hst])]
    refine ⟨by rw [hc, applyConfirmItems_eq], ?_⟩
    have hrun : runConfirmOrder s oid = { s with
        products := applyConfirmItems s.products (s.orderItems.filter (fun it => it.orderID == oid)),
        orders := setOrderStatus s.orders oid .confirmed } := by
      unfold runConfirmOrder
      rw [hc]
    rw [hrun]
    exact findOrder_setOrderStatus .confirmed h
  · intro hst
    have hc : confirmOrder s oid = .error "order must be paid before confirmation" := by
      unfold confirmOrder
      simp only [h]
      rw [if_pos hst]
    exact ⟨hc, by unfold runConfirmOrder; rw [hc]⟩

/-- C3 witness: confirming the paid example order decrements A's stock
from 5 to 3, B's stock from 1 to 0, and bumps both order counts to 1. -/
theorem c3_witness :
    (confirmOrder sPaid 1 = .ok { sPaid with
        products := sPaid.products.map (fun p =>
          { p with
            stock := p.stock - qtyOf (sPaid.orderItems.filter (fun it => it.orderID == 1)) p.id,
            orderCount := p.orderCount +
              cntOf (sPaid.orderItems.filter (fun it => it.orderID == 1)) p.id }),
        orders := setOrderStatus sPaid.orders 1 .confirmed } ∧
      findOrder (runConfirmOrder sPaid 1).orders 1 = some { oPaid with status := .confirmed }) ∧
    (findProduct (runConfirmOrder sPaid 1).products 1).map Product.stock = some 3 ∧
    (findProduct (runConfirmOrder sPaid 1).products 2).map Product.stock = some 0 ∧
    (findProduct (runConfirmOrder sPaid 1).products 1).map Product.orderCount = some 1 ∧
    (findProduct (runConfirmOrder sPaid 1).products 2).map Product.orderCount = some 1 := by
  refine ⟨(c3_confirmOrder_spec sPaid 1 oPaid rfl).1 rfl, by decide, by decide, by decide, by decide⟩

/-- C5: transitions succeed only along the defined edges. For the order
with id `oid` (ids unique): `PayOrder` by the owner succeeds exactly from
`pending` and sets `paid`; by a non-owner it fails; `ConfirmOrder`
succeeds exactly from `paid`; `ShipOrder` exactly from `confirmed`;
`DeliverOrder` exactly from `shipped`; cancel fails exactly from the two
terminal statuses `delivered`/`cancelled` and otherwise sets `cancelled`;
every failing transition returns a descriptive error and leaves the
store (hence the order's status) unchanged. -/
theorem c5_status_machine (s : DBState) (oid uid : Nat) (o : Order)
    (h : findOrder s.orders oid = some o)
    (huniq : ∀ x ∈ s.orders, x.id = oid → x = o) :
    (o.userID = uid → o.status = .pending →
      payOrder s oid uid = .ok { s with orders := setOrderStatus s.orders oid .paid } ∧
      findOrder (runPayOrder s oid uid).orders oid = some { o with status := .paid }) ∧
    (o.userID = uid → o.status ≠ .pending →
      payOrder s oid uid = .error "only pending orders can be paid" ∧
      runPayOrder s oid uid = s) ∧
    (o.userID ≠ uid → payOrder s oid uid = .error "order not found") ∧
    (o.status = .paid → isErr (confirmOrder s oid) = false ∧
      findOrder (runConfirmOrder s oid).orders oid = some { o with status := .confirmed }) ∧
    (o.status ≠ .paid →
      confirmOrder s oid = .error "order must be paid before confirmation" ∧
      runConfirmOrder s oid = s) ∧
    (o.status = .confirmed →
      shipOrder s oid = .ok { s with orders := setOrderStatus s.orders oid .shipped } ∧
      findOrder (runShipOrder s oid).orders oid = some { o with status := .shipped }) ∧
    (o.status ≠ .confirmed →
      shipOrder s oid = .error "order must be confirmed before shipping" ∧
      runShipOrder s oid = s) ∧
    (o.status = .shipped →
      deliverOrder s oid = .ok { s with orders := setOrderStatus s.orders oid .delivered } ∧
      findOrder (runDeliverOrder s oid).orders oid = some { o with status := .delivered }) ∧
    (o.status ≠ .shipped →
      deliverOrder s oid = .error "order must be shipped before delivery" ∧
      runDeliverOrder s oid = s) ∧
    (o.status ≠ .delivered → o.status ≠ .cancelled →
      cancelOrder s oid = .ok { s with orders := setOrderStatus s.orders oid .cancelled } ∧
      findOrder (runCancelOrder s oid).orders oid = some { o with status := .cancelled }) ∧
    ((o.status = .delivered ∨ o.status = .cancelled) →
      cancelOrder s oid = .error "order cannot be cancelled" ∧
      runCancelOrder s oid = s) := by
  refine ⟨?_, ?_, ?_, ?_, ?_, ?_, ?_, ?_, ?_, ?_, ?_⟩
  · intro hu hst
    have hfu : findOrderOfUser s.orders oid uid = some o := by
      have := findOrderOfUser_of_findOrder h
      rwa [hu] at this
    have hp : payOrder s oid uid = .ok { s with orders := setOrderStatus s.orders oid .paid } := by
      unfold payOrder
      simp only [hfu]
      rw [if_neg (by simp [hst])]
    refine ⟨hp, ?_⟩
    have hrun : runPayOrder s oid uid = { s with orders := setOrderStatus s.orders oid .paid } := by
      unfold runPayOrder
      rw [hp]
    rw [hrun]
    exact findOrder_setOrderStatus .paid h
  · intro hu hst
    have hfu : findOrderOfUser s.orders oid uid = some o := by
      have := findOrderOfUser_of_findOrder h
      rwa [hu] at this
    have hp : payOrder s oid uid = .error "only pending orders can be paid" := by
      unfold payOrder
      simp only [hfu]
      rw [if_pos hst]
    exact ⟨hp, by unfold runPayOrder; rw [hp]⟩
  · intro hu
    have hfu : findOrderOfUser s.orders oid uid = none := by
      refine findOrderOfUser_none s.orders oid uid (fun x hx hxid => ?_)
      rw [huniq x hx hxid]
      exact hu
    unfold payOrder
    simp only [hfu]
  · intro hst
    have hc : confirmOrder s oid = .ok { s with
        products := applyConfirmItems s.products (s.orderItems.filter (fun it => it.orderID == oid)),
        orders := setOrderStatus s.orders oid .confirmed } := by
      unfold confirmOrder
      simp only [h]
      rw [if_neg (by simp [hst])]
    refine ⟨by rw [hc]; rfl, ?_⟩
    have hrun : runConfirmOrder s oid = { s with
        products := applyConfirmItems s.products (s.orderItems.filter (fun it => it.orderID == oid)),
        orders := setOrderStatus s.orders oid .confirmed } := by
      unfold runConfirmOrder
      rw [hc]
    rw [hrun]
    exact findOrder_setOrderStatus .confirmed h
  · intro hst
    have hc : confirmOrder s oid = .error "order must be paid before confirmation" := by
      unfold confirmOrder
      simp only [h]
      rw [if_pos hst]
    exact ⟨hc, by unfold runConfirmOrder; rw [hc]⟩
  · intro hst
    have hc : shipOrder s oid = .ok { s with orders := setOrderStatus s.orders oid .shipped } := by
      unfold shipOrder
      simp only [h]
      rw [if_neg (by simp [hst])]
    refine ⟨hc, ?_⟩
    have hrun : runShipOrder s oid = { s with orders := setOrderStatus s.orders oid .shipped } := by
      unfold runShipOrder
      rw [hc]
    rw [hrun]
    exact findOrder_setOrderStatus .shipped h
  · intro hst
    have hc : shipOrder s oid = .error "order must be confirmed before shipping" := by
      unfold shipOrder
      simp only [h]
      rw [if_pos hst]
    exact ⟨hc, by unfold runShipOrder; rw [hc]⟩
  · intro hst
    have hc : deliverOrder s oid = .ok { s with orders := setOrderStatus s.orders oid .delivered } := by
      unfold deliverOrder
      simp only [h]
      rw [if_neg (by simp [hst])]
    refine ⟨hc, ?_⟩
    have hrun : runDeliverOrder s oid = { s with orders := setOrderStatus s.orders oid .delivered } := by
      unfold runDeliverOrder
      rw [hc]
    rw [hrun]
    exact findOrder_setOrderStatus .delivered h
  · intro hst
    have hc : deliverOrder s oid = .error "order must be shipped before delivery" := by
      unfold deliverOrder
      simp only [h]
      rw [if_pos hst]
    exact ⟨hc, by unfold runDeliverOrder; rw [hc]⟩
  · intro hd hcn
    have hc : cancelOrder s oid = .ok { s with orders := setOrderStatus s.orders oid .cancelled } := by
      unfold cancelOrder
      simp only [h]
      rw [if_neg (by simp [hd, hcn])]
    refine ⟨hc, ?_⟩
    have hrun : runCancelOrder s oid = { s with orders := setOrderStatus s.orders oid .cancelled } := by
      unfold runCancelOrder
      rw [hc]
    rw [hrun]
    exact findOrder_setOrderStatus .cancelled h
  · intro hterm
    have hc : cancelOrder s oid = .error "order cannot be cancelled" := by
      unfold cancelOrder
      simp only [h]
      rw [if_pos hterm]
    exact ⟨hc, by unfold runCancelOrder; rw [hc]⟩

/-- C5 witness: on the pending example order, pay by the owner succeeds,
pay by a stranger fails, confirm/ship/deliver all fail leaving the store
unchanged, and cancel succeeds; on the paid order confirm succeeds; on
the cancelled order cancel fails (terminal). -/
theorem c5_witness :
    (payOrder sPend 1 7 = .ok { sPend with orders := setOrderStatus sPend.orders 1 .paid } ∧
      findOrder (runPayOrder sPend 1 7).orders 1 = some { oPend with status := .paid }) ∧
    payOrder sPend 1 9 = .error "order not found" ∧
    (confirmOrder sPend 1 = .error "order must be paid before confirmation" ∧
      runConfirmOrder sPend 1 = sPend) ∧
    (shipOrder sPend 1 = .error "order must be confirmed before shipping" ∧
      runShipOrder sPend 1 = sPend) ∧
    (deliverOrder sPend 1 = .error "order must be shipped before delivery" ∧
      runDeliverOrder sPend 1 = sPend) ∧
    (cancelOrder sPend 1 = .ok { sPend with orders := setOrderStatus sPend.orders 1 .cancelled } ∧
      findOrder (runCancelOrder sPend 1).orders 1 = some { oPend with status := .cancelled }) ∧
    (isErr (confirmOrder sPaid 1) = false ∧
      findOrder (runConfirmOrder sPaid 1).orders 1 = some { oPaid with status := .confirmed }) ∧
    (cancelOrder sCancelled 1 = .error "order cannot be cancelled" ∧
      runCancelOrder sCancelled 1 = sCancelled) := by
  have hp := c5_status_machine sPend 1 7 oPend rfl (by decide)
  have hp9 := c5_status_machine sPend 1 9 oPend rfl (by decide)
  have hq := c5_status_machine sPaid 1 7 oPaid rfl (by decide)
  have hterm := c5_status_machine sCancelled 1 7 oCancelled rfl (by decide)
  exact ⟨hp.1 rfl rfl,
         hp9.2.2.1 (by decide),
         hp.2.2.2.2.1 (by decide),
         hp.2.2.2.2.2.2.1 (by decide),
         hp.2.2.2.2.2.2.2.2.1 (by decide),
         hp.2.2.2.2.2.2.2.2.2.1 (by decide) (by decide),
         hq.2.2.2.1 rfl,
         hterm.2.2.2.2.2.2.2.2.2.2 (Or.inr rfl)⟩

/-- C10: each line's stock check is made independently against the stored
stock (no running total), so a request whose lines are each individually
covered succeeds even if their summed quantity exceeds the stock (no
aggregate hypothesis is needed below), and confirming the created order
after payment decrements each product once per line — by the summed line
quantities — and bumps its order count once per line. -/
theorem c10_per_line_stock_check (s : DBState) (uid now : Nat) (reqs : List OrderItemReq)
    (hok : ∀ r ∈ reqs, LineOK s.products r)
    (hfreshO : ∀ x ∈ s.orders, x.id ≠ s.nextOrderID)
    (hfreshI : ∀ it ∈ s.orderItems, it.orderID ≠ s.nextOrderID) :
    isErr (createOrder s uid reqs now) = false ∧
    (runConfirmOrder (runPayOrder (runCreateOrder s uid reqs now) s.nextOrderID uid)
        s.nextOrderID).products =
      s.products.map (fun p =>
        { p with
          stock := p.stock -
            ((reqs.filter (fun r => r.productID == p.id)).map OrderItemReq.quantity).sum,
          orderCount := p.orderCount +
            ((reqs.filter (fun r => r.productID == p.id)).length : ℤ) }) := by
  have hco := createOrder_ok s uid now reqs hok
  refine ⟨by rw [hco]; rfl, ?_⟩
  have h1 : runCreateOrder s uid reqs now = { s with
      orders := s.orders ++ [newOrder s uid reqs now],
      orderItems := s.orderItems ++ reqs.map (mkItem s.products s.nextOrderID),
      nextOrderID := s.nextOrderID + 1 } := by
    unfold runCreateOrder
    rw [hco]
  rw [h1]
  have hfind1 : findOrder (s.orders ++ [newOrder s uid reqs now]) s.nextOrderID
      = some (newOrder s uid reqs now) :=
    findOrder_append_fresh s.orders (newOrder s uid reqs now) (fun x hx => hfreshO x hx)
  have hfu : findOrderOfUser (s.orders ++ [newOrder s uid reqs now]) s.nextOrderID uid
      = some (newOrder s uid reqs now) := findOrderOfUser_of_findOrder hfind1
  have hsetpaid : setOrderStatus (s.orders ++ [newOrder s uid reqs now]) s.nextOrderID
      OrderStatus.paid = s.orders ++ [{ newOrder s uid reqs now with status := .paid }] :=
    setOrderStatus_append_fresh s.orders (newOrder s uid reqs now) .paid
      (fun x hx => hfreshO x hx)
  have hpay : payOrder { s with
      orders := s.orders ++ [newOrder s uid reqs now],
      orderItems := s.orderItems ++ reqs.map (mkItem s.products s.nextOrderID),
      nextOrderID := s.nextOrderID + 1 } s.nextOrderID uid = .ok { s with
      orders := s.orders ++ [{ newOrder s uid reqs now with status := .paid }],
      orderItems := s.orderItems ++ reqs.map (mkItem s.products s.nextOrderID),
      nextOrderID := s.nextOrderID + 1 } := by
    unfold payOrder
    simp only [hfu]
    rw [if_neg (by simp [newOrder])]
    rw [hsetpaid]
  have h2 : runPayOrder { s with
      orders := s.orders ++ [newOrder s uid reqs now],
      orderItems := s.orderItems ++ reqs.map (mkItem s.products s.nextOrderID),
      nextOrderID := s.nextOrderID + 1 } s.nextOrderID uid = { s with
      orders := s.orders ++ [{ newOrder s uid reqs now with status := .paid }],
      orderItems := s.orderItems ++ reqs.map (mkItem s.products s.nextOrderID),
      nextOrderID := s.nextOrderID + 1 } := by
    unfold runPayOrder
    rw [hpay]
  rw [h2]
  have hfind2 : findOrder (s.orders ++ [{ newOrder s uid reqs now with status := .paid }])
      s.nextOrderID = some { newOrder s uid reqs now with status := .paid } :=
    findOrder_append_fresh s.orders _ (fun x hx => hfreshO x hx)
  have hitems : (s.orderItems ++ reqs.map (mkItem s.products s.nextOrderID)).filter
      (fun it => it.orderID == s.nextOrderID) = reqs.map (mkItem s.products s.nextOrderID) :=
    filter_append_fresh s.orderItems _ s.nextOrderID hfreshI
      (fun it hit => by
        obtain ⟨r, hr, hrfl⟩ := List.mem_map.mp hit
        rw [← hrfl]
        rfl)
  have hconf : confirmOrder { s with
      orders := s.orders ++ [{ newOrder s uid reqs now with status := .paid }],
      orderItems := s.orderItems ++ reqs.map (mkItem s.products s.nextOrderID),
      nextOrderID := s.nextOrderID + 1 } s.nextOrderID = .ok { s with
      products := applyConfirmItems s.products (reqs.map (mkItem s.products s.nextOrderID)),
      orders := setOrderStatus (s.orders ++ [{ newOrder s uid reqs now with status := .paid }])
        s.nextOrderID .confirmed,
      orderItems := s.orderItems ++ reqs.map (mkItem s.products s.nextOrderID),
      nextOrderID := s.nextOrderID + 1 } := by
    unfold confirmOrder
    simp only [hfind2]
    rw [if_neg (by simp)]
    rw [hitems]
  have h3 : runConfirmOrder { s with
      orders := s.orders ++ [{ newOrder s uid reqs now with status := .paid }],
      orderItems := s.orderItems ++ reqs.map (mkItem s.products s.nextOrderID),
      nextOrderID := s.nextOrderID + 1 } s.nextOrderID = { s with
      products := applyConfirmItems s.products (reqs.map (mkItem s.products s.nextOrderID)),
      orders := setOrderStatus (s.orders ++ [{ newOrder s uid reqs now with status := .paid }])
        s.nextOrderID .confirmed,
      orderItems := s.orderItems ++ reqs.map (mkItem s.products s.nextOrderID),
      nextOrderID := s.nextOrderID + 1 } := by
    unfold runConfirmOrder
    rw [hconf]
  rw [h3]
  show applyConfirmItems s.products (reqs.map (mkItem s.products s.nextOrderID)) = _
  rw [applyConfirmItems_eq]
  simp only [qtyOf_map_mkItem, cntOf_map_mkItem]

/-- C10 witness: product C has stock 5 and the request's two lines sum to
quantity 6, yet creation succeeds (each line alone is within stock) and
the confirmed order leaves C's stock decremented by 6 (to −1) with order
count bumped by 2 (once per line). -/
theorem c10_witness :
    isErr (createOrder sC 7 reqCC 100) = false ∧
    (runConfirmOrder (runPayOrder (runCreateOrder sC 7 reqCC 100) sC.nextOrderID 7)
        sC.nextOrderID).products =
      sC.products.map (fun p =>
        { p with
          stock := p.stock -
            ((reqCC.filter (fun r => r.productID == p.id)).map OrderItemReq.quantity).sum,
          orderCount := p.orderCount +
            ((reqCC.filter (fun r => r.productID == p.id)).length : ℤ) }) ∧
    (reqCC.map OrderItemReq.quantity).sum = 6 ∧
    (findProduct sC.products 1).map Product.stock = some 5 := by
  have hok : ∀ r ∈ reqCC, LineOK sC.products r := by
    intro r hr
    fin_cases hr
    · exact ⟨prodC, rfl, by decide⟩
    · exact ⟨prodC, rfl, by decide⟩
  have h := c10_per_line_stock_check sC 7 100 reqCC hok (by decide) (by decide)
  exact ⟨h.1, h.2, by decide, by decide⟩

/-- Resolving a user whose assignment rows are a prefix without the user
followed by a single row for role id `rid` yields that role's name. -/
theorem getUserRole_append (users : List Nat) (roles : List Role) (pre : List UserRole)
    (u rid : Nat) (r : Role)
    (hpre : pre.find? (fun x => x.userID == u) = none)
    (hfr : roles.find? (fun x => x.id == rid) = some r) :
    getUserRole ⟨users, roles, pre ++ [{ userID := u, roleID := rid }]⟩ u = r.name := by
  unfold getUserRole
  rw [find?_append_none (fun x => x.userID == u) pre [{ userID := u, roleID := rid }] hpre,
      @find?_cons_pos UserRole (fun x => x.userID == u) { userID := u, roleID := rid } []
        (beq_self_eq_true u)]
  dsimp only
  rw [hfr]

/-- C8: `AssignRole` fails when the actor's resolved role is not
super-admin, when the role name is unknown, or when the target user does
not exist; when the actor is super-admin and role and target exist it
succeeds, deleting any prior assignment of the target and inserting the
new one, after which the target has exactly one assignment row and
resolves to the assigned role; `GetUserRole` resolves a user with no
assignment to the default role `user` (and, being total, never fails). -/
theorem c8_assignRole_spec (rs : RoleState) (target actor : Nat) (roleName : String)
    (huniq : ∀ r1 ∈ rs.roles, ∀ r2 ∈ rs.roles, r1.id = r2.id → r1 = r2) :
    (getUserRole rs actor ≠ ROLE_SUPER_ADMIN →
      assignRole rs target roleName actor = .error "only super admin can assign roles") ∧
    (getUserRole rs actor = ROLE_SUPER_ADMIN →
      rs.roles.find? (fun r => r.name == roleName) = none →
      assignRole rs target roleName actor = .error "role not found") ∧
    (∀ role, getUserRole rs actor = ROLE_SUPER_ADMIN →
      rs.roles.find? (fun r => r.name == roleName) = some role →
      target ∉ rs.users →
      assignRole rs target roleName actor = .error "user not found") ∧
    (∀ role, getUserRole rs actor = ROLE_SUPER_ADMIN →
      rs.roles.find? (fun r => r.name == roleName) = some role →
      target ∈ rs.users →
      assignRole rs target roleName actor = .ok { rs with
        userRoles := rs.userRoles.filter (fun ur => !(ur.userID == target)) ++
          [{ userID := target, roleID := role.id }] } ∧
      (rs.userRoles.filter (fun ur => !(ur.userID == target)) ++
          [({ userID := target, roleID := role.id } : UserRole)]).filter
        (fun ur => ur.userID == target) = [{ userID := target, roleID := role.id }] ∧
      getUserRole { rs with
        userRoles := rs.userRoles.filter (fun ur => !(ur.userID == target)) ++
          [{ userID := target, roleID := role.id }] } target = roleName) ∧
    (∀ u, rs.userRoles.find? (fun ur => ur.userID == u) = none →
      getUserRole rs u = ROLE_USER) := by
  refine ⟨?_, ?_, ?_, ?_, ?_⟩
  · intro h
    unfold assignRole
    rw [if_pos h]
  · intro hs hn
    unfold assignRole
    rw [if_neg (fun hne => hne hs)]
    simp only [hn]
  · intro role hs hrole hnu
    unfold assignRole
    rw [if_neg (fun hne => hne hs)]
    simp only [hrole]
    rw [if_pos hnu]
  · intro role hs hrole hu
    have hassign : assignRole rs target roleName actor = .ok { rs with
        userRoles := rs.userRoles.filter (fun ur => !(ur.userID == target)) ++
          [{ userID := target, roleID := role.id }] } := by
      unfold assignRole
      rw [if_neg (fun hne => hne hs)]
      simp only [hrole]
      rw [if_neg (fun hn => hn hu)]
    have e1 : (rs.userRoles.filter (fun ur => !(ur.userID == target))).filter
        (fun ur => ur.userID == target) = [] := by
      rw [List.filter_eq_nil_iff]
      intro a ha
      have hb := (List.mem_filter.mp ha).2
      simp only [Bool.not_eq_true'] at hb
      simp [hb]
    have e2 : (rs.userRoles.filter (fun ur => !(ur.userID == target))).find?
        (fun ur => ur.userID == target) = none := by
      rw [List.find?_eq_none]
      intro a ha
      have hb := (List.mem_filter.mp ha).2
      simp only [Bool.not_eq_true'] at hb
      simp [hb]
    have hmem : role ∈ rs.roles := List.mem_of_find?_eq_some hrole
    have hfr : rs.roles.find? (fun x => x.id == role.id) = some role := by
      cases hf2 : rs.roles.find? (fun x => x.id == role.id) with
      | none =>
        exact absurd (List.find?_eq_none.mp hf2 role hmem) (by simp)
      | some r2 =>
        have h1 : r2.id = role.id := by
          have := List.find?_some hf2
          simpa using this
        rw [← huniq r2 (List.mem_of_find?_eq_some hf2) role hmem h1]
    have hname : role.name = roleName := by
      have := List.find?_some hrole
      simpa using this
    refine ⟨hassign, ?_, ?_⟩
    · rw [List.filter_append, e1]
      simp
    · exact (getUserRole_append rs.users rs.roles
        (rs.userRoles.filter (fun ur => !(ur.userID == target))) target role.id role
        e2 hfr).trans hname
  · intro u hn
    simp only [getUserRole, hn]

/-- C8 witness: in `rsBase` (user 1 is super-admin, users 2 and 3 have no
assignment): a non-super-admin actor fails, an unknown role name fails, a
missing target fails; the super-admin assigning `seller` to user 2
succeeds and replaces the assignment, after which user 2 resolves to
`seller` via exactly one row; an unassigned user resolves to `user`. -/
theorem c8_witness :
    assignRole rsBase 2 "seller" 3 = .error "only super admin can assign roles" ∧
    assignRole rsBase 2 "ghost" 1 = .error "role not found" ∧
    assignRole rsBase 99 "seller" 1 = .error "user not found" ∧
    assignRole rsBase 2 "seller" 1 = .ok rsAfter ∧
    getUserRole rsAfter 2 = "seller" ∧
    rsAfter.userRoles.filter (fun ur => ur.userID == 2) = [{ userID := 2, roleID := 2 }] ∧
    getUserRole rsBase 2 = ROLE_USER := by
  have h1 := c8_assignRole_spec rsBase 2 3 "seller" (by decide)
  have h2 := c8_assignRole_spec rsBase 2 1 "ghost" (by decide)
  have h3 := c8_assignRole_spec rsBase 99 1 "seller" (by decide)
  have h4 := c8_assignRole_spec rsBase 2 1 "seller" (by decide)
  have hp := h4.2.2.2.1 { id := 2, name := "seller" } (by decide) (by decide) (by decide)
  exact ⟨h1.1 (by decide),
         h2.2.1 (by decide) (by decide),
         h3.2.2.1 { id := 2, name := "seller" } (by decide) (by decide) (by decide),
         hp.1,
         hp.2.2,
         hp.2.1,
         h4.2.2.2.2 2 (by decide)⟩

end GoShop
